import Mathlib

/-!
Verification development for the VNDB companion client's query/cache/
normalization layer and list-browsing state machine.  The definitions below
are shallow embeddings of the TypeScript source
(`src/components/VisualNovelList.tsx`, the API client module, and the
description-markup renderer); the theorems settle the specification's
claims about them.
-/

namespace VndbCompanion

/-! ## JavaScript string primitives

Executable models of the JS string operations the source uses
(`trim`, `toLowerCase`, `startsWith`, digit extraction for
`Number(s.replace(/[^\d]/g, ''))`). -/

/-- Whitespace test matching the characters JS `String.prototype.trim`
strips for the inputs occurring in this code base. -/
def jsIsWhitespace (c : Char) : Bool :=
  c = ' ' || c = '\t' || c = '\n' || c = '\r'

/-- Model of JS `String.prototype.trim`. -/
def jsTrim (s : String) : String :=
  ((s.toList.dropWhile jsIsWhitespace).reverse.dropWhile jsIsWhitespace).reverse.asString

/-- Model of JS `String.prototype.toLowerCase` (ASCII range, which is all
the source ever lowercases). -/
def jsToLower (s : String) : String :=
  (s.toList.map Char.toLower).asString

/-- Model of JS `String.prototype.startsWith`. -/
def jsStartsWith (s prefixStr : String) : Bool :=
  prefixStr.toList.isPrefixOf s.toList

/-- Digits of a string, in order: models `s.replace(/[^\d]/g, '')`. -/
def jsDigitsOf (s : String) : List Char :=
  s.toList.filter Char.isDigit

/-- Model of JS `Number(s.replace(/[^\d]/g, ''))` for the label-parsing
paths: the digit characters read as a decimal natural, with the JS quirk
that `Number("")` is `0`. -/
def jsDigitsToNat (s : String) : Nat :=
  (jsDigitsOf s).foldl (fun acc c => acc * 10 + (c.toNat - 48)) 0

/-- First-occurrence deduplication, the semantics of `[...new Set(xs)]`. -/
def jsSetDedupAux : List String → List String → List String
  | [], _ => []
  | x :: xs, seen =>
    if x ∈ seen then jsSetDedupAux xs seen
    else x :: jsSetDedupAux xs (x :: seen)

/-- `[...new Set(xs)]`: keep the first occurrence of each element. -/
def jsSetDedup (xs : List String) : List String :=
  jsSetDedupAux xs []

/-! ## Data model (`src/types/apiTypes.ts`) -/

/-- Nested cover-image object (`VisualNovelCoverImage`). -/
structure VisualNovelCoverImage where
  id : String
  url : String
  thumbnail : String
  sexual : Int
  deriving Repr, DecidableEq

/-- `VisualNovelDatabaseEntry`: `{ id, title, rating: number|null,
image: cover|null }`.  Rating is `Option` because insufficient votes
suppress it upstream. -/
structure VisualNovelDatabaseEntry where
  id : String
  title : String
  rating : Option Int
  image : Option VisualNovelCoverImage
  deriving Repr, DecidableEq

/-- `VisualNovelQueryResponse`: `{ results, more }`. -/
structure VisualNovelQueryResponse where
  results : List VisualNovelDatabaseEntry
  more : Bool
  deriving Repr, DecidableEq

/-! ## Query descriptor (`VisualNovelList.tsx`) -/

/-- `ListFilterState`. -/
structure ListFilterState where
  languages : List String
  originalLanguage : String
  onlyWithScreenshots : Bool
  onlyWithDescription : Bool
  deriving Repr, DecidableEq

/-- `ListSortState`; `sortField` ∈ {default, title, released, rating,
votecount, id}, `direction` ∈ {asc, desc}, kept as the source's string
literals. -/
structure ListSortState where
  sortField : String
  direction : String
  deriving Repr, DecidableEq

/-- `ListQueryDescriptor`: kind ∈ {text, tag, developer}. -/
structure ListQueryDescriptor where
  kind : String
  term : String
  tagIdentifier : Option String
  developerIdentifier : Option String
  filters : ListFilterState
  sort : ListSortState
  deriving Repr, DecidableEq

/-! ## FilterExpressionBuilder (`buildFiltersFromQueryDescriptor`) -/

/-- VNDB filter AST.  JS nested arrays `["field", "op", value]` become
typed leaves; `["and", ...]` / `["or", ...]` become nodes. -/
inductive FilterExpr where
  | cmpStr (fieldName op value : String)
  | cmpBool (fieldName op : String) (value : Bool)
  | cmpNested (fieldName op : String) (sub : FilterExpr)
  | andNode (clauses : List FilterExpr)
  | orNode (clauses : List FilterExpr)
  deriving Repr

/-- JS truthiness of an optional string (`undefined` and `''` are falsy). -/
def jsTruthyStr : Option String → Bool
  | none => false
  | some s => s ≠ ""

/-- Shallow embedding of `buildFiltersFromQueryDescriptor`
(`VisualNovelList.tsx` lines 331–368): primary clause by kind, then
language / original-language / boolean leaves in fixed order; a single
clause is returned unwrapped, otherwise everything is wrapped in one AND. -/
def buildFiltersFromQueryDescriptor (q : ListQueryDescriptor) : FilterExpr :=
  let primaryClause : FilterExpr :=
    if q.kind = "tag" && jsTruthyStr q.tagIdentifier then
      .cmpStr "tag" "=" (q.tagIdentifier.getD "")
    else if q.kind = "developer" && jsTruthyStr q.developerIdentifier then
      .cmpNested "developer" "=" (.cmpStr "id" "=" (q.developerIdentifier.getD ""))
    else if jsTrim q.term ≠ "" then
      .cmpStr "search" "=" q.term
    else
      .cmpStr "id" ">=" "v1"
  let languageClauses : List FilterExpr :=
    if q.filters.languages.length = 1 then
      [.cmpStr "lang" "=" (q.filters.languages.headD "")]
    else if q.filters.languages.length > 1 then
      [.orNode (q.filters.languages.map (fun languageCode => .cmpStr "lang" "=" languageCode))]
    else
      []
  let originalLanguageClauses : List FilterExpr :=
    if jsTrim q.filters.originalLanguage ≠ "" then
      [.cmpStr "olang" "=" q.filters.originalLanguage]
    else
      []
  let screenshotClauses : List FilterExpr :=
    if q.filters.onlyWithScreenshots then [.cmpBool "has_screenshot" "=" true] else []
  let descriptionClauses : List FilterExpr :=
    if q.filters.onlyWithDescription then [.cmpBool "has_description" "=" true] else []
  let filterClauses : List FilterExpr :=
    primaryClause :: (languageClauses ++ originalLanguageClauses ++ screenshotClauses ++ descriptionClauses)
  match filterClauses with
  | [singleClause] => singleClause
  | clauses => .andNode clauses

/-- The clause list assembled by `buildFiltersFromQueryDescriptor` before
the singleton-unwrap step; used to state the wrap/unwrap contract. -/
def assembledFilterClauses (q : ListQueryDescriptor) : List FilterExpr :=
  let primaryClause : FilterExpr :=
    if q.kind = "tag" && jsTruthyStr q.tagIdentifier then
      .cmpStr "tag" "=" (q.tagIdentifier.getD "")
    else if q.kind = "developer" && jsTruthyStr q.developerIdentifier then
      .cmpNested "developer" "=" (.cmpStr "id" "=" (q.developerIdentifier.getD ""))
    else if jsTrim q.term ≠ "" then
      .cmpStr "search" "=" q.term
    else
      .cmpStr "id" ">=" "v1"
  let languageClauses : List FilterExpr :=
    if q.filters.languages.length = 1 then
      [.cmpStr "lang" "=" (q.filters.languages.headD "")]
    else if q.filters.languages.length > 1 then
      [.orNode (q.filters.languages.map (fun languageCode => .cmpStr "lang" "=" languageCode))]
    else
      []
  let originalLanguageClauses : List FilterExpr :=
    if jsTrim q.filters.originalLanguage ≠ "" then
      [.cmpStr "olang" "=" q.filters.originalLanguage]
    else
      []
  let screenshotClauses : List FilterExpr :=
    if q.filters.onlyWithScreenshots then [.cmpBool "has_screenshot" "=" true] else []
  let descriptionClauses : List FilterExpr :=
    if q.filters.onlyWithDescription then [.cmpBool "has_description" "=" true] else []
  primaryClause :: (languageClauses ++ originalLanguageClauses ++ screenshotClauses ++ descriptionClauses)

/-! ## ResponseCache (API client, `readFromCache` / `writeToCache`)

The source keeps `Map<string, { expiresAt: number; payload: unknown }>`
stores; we model a store as an association list in insertion order, with
`Map.set` overwriting in place and `Map.delete` removing the key. -/

/-- One cache entry: `{ expiresAt: number; payload }`. -/
structure CacheEntry (α : Type) where
  expiresAt : Nat
  payload : α
  deriving Repr, DecidableEq

/-- A `Map<string, CacheEntry>` store. -/
abbrev CacheStore (α : Type) : Type := List (String × CacheEntry α)

/-- `Map.get`. -/
def cacheStoreGet (store : CacheStore α) (cacheKey : String) : Option (CacheEntry α) :=
  (store.find? (fun entryPair => entryPair.1 = cacheKey)).map (·.2)

/-- `Map.set`: overwrite in place if present, else append. -/
def cacheStoreSet (store : CacheStore α) (cacheKey : String) (entry : CacheEntry α) :
    CacheStore α :=
  if store.any (fun entryPair => entryPair.1 = cacheKey) then
    store.map (fun entryPair => if entryPair.1 = cacheKey then (cacheKey, entry) else entryPair)
  else
    store ++ [(cacheKey, entry)]

/-- `Map.delete`. -/
def cacheStoreDelete (store : CacheStore α) (cacheKey : String) : CacheStore α :=
  store.filter (fun entryPair => entryPair.1 ≠ cacheKey)

/-- `CACHE_TIME_TO_LIVE_MILLISECONDS = 5 * 60 * 1000`. -/
def CACHE_TIME_TO_LIVE_MILLISECONDS : Nat := 5 * 60 * 1000

/-- Shallow embedding of `readFromCache` (API client lines 38–50): a
missing key is a miss; `Date.now() > expiresAt` deletes the entry and is
a miss; otherwise the payload is returned.  `now` stands for
`Date.now()`; the returned store reflects the eviction side effect. -/
def readFromCache (now : Nat) (cacheStore : CacheStore α) (cacheKey : String) :
    Option α × CacheStore α :=
  match cacheStoreGet cacheStore cacheKey with
  | none => (none, cacheStore)
  | some cachedEntry =>
    if now > cachedEntry.expiresAt then
      (none, cacheStoreDelete cacheStore cacheKey)
    else
      (some cachedEntry.payload, cacheStore)

/-- Shallow embedding of `writeToCache` (API client lines 52–57). -/
def writeToCache (now : Nat) (cacheStore : CacheStore α) (cacheKey : String) (payload : α) :
    CacheStore α :=
  cacheStoreSet cacheStore cacheKey
    { expiresAt := now + CACHE_TIME_TO_LIVE_MILLISECONDS, payload := payload }

/-! ## Status derivation (`deriveStatusLabelFromUnknownLabels`) -/

/-- The loosely-typed label values a ulist entry's `labels` array can
hold: a number, a string, an object with a numeric or string `id`, an
object whose `id` is missing or of another type, or any other value
(including `null`). -/
inductive RawLabel where
  | num (n : Int)
  | str (s : String)
  | objNumId (idValue : Int)
  | objStrId (idValue : String)
  | objOther
  | other
  deriving Repr, DecidableEq

/-- The `.map` body of `deriveStatusLabelFromUnknownLabels`
(`VisualNovelList.tsx` lines 254–276): numbers pass through, strings and
string `id`s go through digit extraction (`Number(s.replace(/[^\d]/g,''))`,
where JS maps an all-non-digit string to `0`), objects with numeric `id`
pass the id through, everything else maps to `null`. -/
def normalizeRawLabel : RawLabel → Option Int
  | .num n => some n
  | .str s => some (jsDigitsToNat s : Int)
  | .objNumId idValue => some idValue
  | .objStrId idValue => some (jsDigitsToNat idValue : Int)
  | .objOther => none
  | .other => none

/-- `STATUS_LABEL_IDENTIFIERS = [1, 2, 3, 4, 5, 6]`. -/
def STATUS_LABEL_IDENTIFIERS : List Int := [1, 2, 3, 4, 5, 6]

/-- Shallow embedding of `deriveStatusLabelFromUnknownLabels`
(`VisualNovelList.tsx` lines 247–280).  `none` in the argument models a
non-array `labels` value.  The result is the first of
`[1, 2, 3, 4, 5, 6]` contained in the normalized label list, or `null`. -/
def deriveStatusLabelFromUnknownLabels (rawLabels : Option (List RawLabel)) : Option Int :=
  match rawLabels with
  | none => none
  | some labels =>
    let normalizedLabels := labels.filterMap normalizeRawLabel
    STATUS_LABEL_IDENTIFIERS.find?
      (fun statusLabelIdentifier => normalizedLabels.contains statusLabelIdentifier)

/-- The per-card status lookup (`VisualNovelList.tsx` lines 1182–1184):
`userListStatusByIdentifier[normalizedId] ?? 5` — a pure read with a
wishlist default, no write. -/
def initialStatusLabelIdentifier (statusByIdentifier : List (String × Int))
    (normalizedIdentifier : String) : Int :=
  ((statusByIdentifier.find? (fun statusPair => statusPair.1 = normalizedIdentifier)).map (·.2)).getD 5

/-- One step of the status-map accumulation (`VisualNovelList.tsx` lines
678–689): a key is recorded only when the entry yields both a normalized
identifier and a derived status label. -/
def statusMapInsertStep (statusMap : List (String × Int))
    (normalizedIdentifier : Option String) (derivedStatus : Option Int) :
    List (String × Int) :=
  match normalizedIdentifier, derivedStatus with
  | some identifier, some statusLabel => (identifier, statusLabel) :: statusMap
  | _, _ => statusMap

/-! ## CatalogQueryGateway write flows and compatibility fallback

Network transport is modelled by an oracle mapping the index of the
request issued within one call (0 for the first, 1 for the fallback
retry, …) to the HTTP response the remote returns.  Each flow also
reports the payload shapes actually sent, so "which request shapes went
on the wire" is provable. -/

/-- An HTTP response as the flows inspect it: `ok`, `status`, and the
body text read on the error path. -/
structure HttpResponse where
  ok : Bool
  status : Nat
  bodyText : String
  deriving Repr, DecidableEq

/-- The payload shapes the personal-list flows can send. -/
inductive UlistRequestShape where
  /-- `{ labels_set: [label] }`, the newer add payload. -/
  | labelsSetPayload
  /-- `{ labels: [label] }`, the reduced compatibility add payload. -/
  | labelsLegacyPayload
  /-- ulist read with the labels-enabled field list. -/
  | labelsEnabledFields
  /-- ulist read with the minimal compatibility field list. -/
  | minimalCompatibilityFields
  /-- `{ labels_unset: …, labels_set: [target] }` status transition. -/
  | statusTransitionPayload
  /-- `DELETE /ulist/<id>`. -/
  | deleteRequest
  deriving Repr, DecidableEq

/-- Outcome of a gateway flow: the error message thrown, or the value
returned; paired with the request shapes sent (in order) and the
personal-list cache left behind. -/
structure WriteFlowResult (α : Type) where
  outcome : Except String α
  requestsSent : List UlistRequestShape
  userListQueryCache : CacheStore String
  deriving Repr

/-- Shallow embedding of `addVisualNovelToAuthenticatedUserList` (API
client lines 702–758): send `{ labels_set: […] }`; if the response is
not ok **and its status is exactly 400**, retry once with
`{ labels: […] }`; if the final response is not ok, throw (leaving the
cache untouched); on success clear the whole `userListQueryCache`. -/
def addVisualNovelToAuthenticatedUserList (transport : Nat → HttpResponse)
    (userListQueryCache : CacheStore String) : WriteFlowResult Unit :=
  let firstResponse := transport 0
  if firstResponse.ok then
    { outcome := .ok (), requestsSent := [.labelsSetPayload], userListQueryCache := [] }
  else if firstResponse.status = 400 then
    let fallbackResponse := transport 1
    if fallbackResponse.ok then
      { outcome := .ok ()
        requestsSent := [.labelsSetPayload, .labelsLegacyPayload]
        userListQueryCache := [] }
    else
      { outcome := .error
          ("Network boundary failure: Unable to add visual novel to user list (HTTP "
            ++ toString fallbackResponse.status ++ ")"
            ++ (if jsTrim fallbackResponse.bodyText ≠ "" then " - " ++ jsTrim fallbackResponse.bodyText else ""))
        requestsSent := [.labelsSetPayload, .labelsLegacyPayload]
        userListQueryCache := userListQueryCache }
  else
    { outcome := .error
        ("Network boundary failure: Unable to add visual novel to user list (HTTP "
          ++ toString firstResponse.status ++ ")"
          ++ (if jsTrim firstResponse.bodyText ≠ "" then " - " ++ jsTrim firstResponse.bodyText else ""))
      requestsSent := [.labelsSetPayload]
      userListQueryCache := userListQueryCache }

/-- Shallow embedding of `updateAuthenticatedUserVisualNovelStatusLabel`
(API client lines 928–956): one PATCH with the status-transition payload,
no fallback; throw on a non-ok response (cache untouched), clear the
personal-list cache on success. -/
def updateAuthenticatedUserVisualNovelStatusLabel (transport : Nat → HttpResponse)
    (userListQueryCache : CacheStore String) : WriteFlowResult Unit :=
  let networkResponse := transport 0
  if networkResponse.ok then
    { outcome := .ok (), requestsSent := [.statusTransitionPayload], userListQueryCache := [] }
  else
    { outcome := .error
        ("Network boundary failure: Unable to update VN list status (HTTP "
          ++ toString networkResponse.status ++ ").")
      requestsSent := [.statusTransitionPayload]
      userListQueryCache := userListQueryCache }

/-- Shallow embedding of `removeVisualNovelFromAuthenticatedUserList`
(API client lines 958–977): one DELETE; throw on a non-ok response
(cache untouched), clear the personal-list cache on success. -/
def removeVisualNovelFromAuthenticatedUserList (transport : Nat → HttpResponse)
    (userListQueryCache : CacheStore String) : WriteFlowResult Unit :=
  let networkResponse := transport 0
  if networkResponse.ok then
    { outcome := .ok (), requestsSent := [.deleteRequest], userListQueryCache := [] }
  else
    { outcome := .error
        ("Network boundary failure: Unable to remove visual novel from your list (HTTP "
          ++ toString networkResponse.status ++ ").")
      requestsSent := [.deleteRequest]
      userListQueryCache := userListQueryCache }

/-- The status-transition payload body (API client lines 936–940):
`labels_unset` is every fixed status label other than the target, and
`labels_set` is exactly the target. -/
structure StatusTransitionBody where
  labels_unset : List Int
  labels_set : List Int
  deriving Repr, DecidableEq

/-- `requestPayload` of `updateAuthenticatedUserVisualNovelStatusLabel`. -/
def statusTransitionRequestPayload (statusLabelIdentifier : Int) : StatusTransitionBody :=
  { labels_unset :=
      STATUS_LABEL_IDENTIFIERS.filter (fun labelIdentifier => labelIdentifier ≠ statusLabelIdentifier)
    labels_set := [statusLabelIdentifier] }

/-- Shallow embedding of the read path of
`fetchAuthenticatedUserVisualNovelList` (API client lines 649–700),
below the cache check: send the labels-enabled field list; if the
response is not ok **and its status is exactly 400**, retry once with
the minimal field list; a final non-ok response throws.  The decoded
body is abstracted by the response index that succeeded. -/
def fetchAuthenticatedUserVisualNovelListRequestPath (transport : Nat → HttpResponse) :
    Except String Nat × List UlistRequestShape :=
  let firstResponse := transport 0
  if firstResponse.ok then
    (.ok 0, [.labelsEnabledFields])
  else if firstResponse.status = 400 then
    let fallbackResponse := transport 1
    if fallbackResponse.ok then
      (.ok 1, [.labelsEnabledFields, .minimalCompatibilityFields])
    else
      (.error
        ("Network boundary failure: Unable to retrieve user visual novel list (HTTP "
          ++ toString fallbackResponse.status ++ ").")
       , [.labelsEnabledFields, .minimalCompatibilityFields])
  else
    (.error
      ("Network boundary failure: Unable to retrieve user visual novel list (HTTP "
        ++ toString firstResponse.status ++ ").")
     , [.labelsEnabledFields])

/-! ## Membership identifier-set fetch
(`fetchAuthenticatedUserVisualNovelIdentifierSet`, API client lines
979–1035) -/

/-- Loosely-typed `id` values a ulist page entry can carry. -/
inductive RawUlistIdentifier where
  | str (s : String)
  | num (n : Nat)
  | otherValue
  deriving Repr, DecidableEq

/-- One page response for the identifier-set fetch: `results` entries'
`id` values and the `more` flag, with `none` modelling a missing
`more` (which `Boolean(resp.more)` turns into `false`). -/
structure UlistPageResponse where
  ok : Bool
  status : Nat
  resultIds : List RawUlistIdentifier
  more : Option Bool
  deriving Repr, DecidableEq

/-- JS `Set.add` on an insertion-ordered string set. -/
def jsSetAdd (identifierSet : List String) (identifier : String) : List String :=
  if identifier ∈ identifierSet then identifierSet else identifierSet ++ [identifier]

/-- The per-entry normalization of the identifier-set loop (API client
lines 1018–1028): non-empty strings are lowercased when needed and
`v`-prefixed, finite numbers become `v<n>`, anything else is skipped. -/
def ulistIdentifierSetInsert (identifierSet : List String) :
    RawUlistIdentifier → List String
  | .str s =>
    if jsTrim s ≠ "" then
      jsSetAdd identifierSet
        (if jsStartsWith (jsToLower s) "v" then jsToLower s else "v" ++ jsToLower s)
    else identifierSet
  | .num n => jsSetAdd identifierSet ("v" ++ toString n)
  | .otherValue => identifierSet

/-- `MAXIMUM_USER_LIST_PAGES = 40`. -/
def MAXIMUM_USER_LIST_PAGES : Nat := 40

/-- The paging loop of `fetchAuthenticatedUserVisualNovelIdentifierSet`:
`while (hasMorePages && activePageNumber <= 40)`.  `transport` maps a
page number to its response; the result carries the accumulated set and
the number of page requests issued, or the thrown error. -/
def fetchIdentifierSetLoop (transport : Nat → UlistPageResponse)
    (activePageNumber : Nat) (identifierSet : List String) (requestCount : Nat) :
    Except String (List String) × Nat :=
  if activePageNumber > MAXIMUM_USER_LIST_PAGES then
    (.ok identifierSet, requestCount)
  else
    let pageResponse := transport activePageNumber
    if !pageResponse.ok then
      (.error
        ("Network boundary failure: Unable to load user list identifiers (HTTP "
          ++ toString pageResponse.status ++ ").")
       , requestCount + 1)
    else
      let updatedSet := pageResponse.resultIds.foldl ulistIdentifierSetInsert identifierSet
      if pageResponse.more.getD false then
        fetchIdentifierSetLoop transport (activePageNumber + 1) updatedSet (requestCount + 1)
      else
        (.ok updatedSet, requestCount + 1)
  termination_by MAXIMUM_USER_LIST_PAGES + 1 - activePageNumber

/-- Shallow embedding of
`fetchAuthenticatedUserVisualNovelIdentifierSet`: start at page 1 with an
empty set and `hasMorePages = true`. -/
def fetchAuthenticatedUserVisualNovelIdentifierSet (transport : Nat → UlistPageResponse) :
    Except String (List String) × Nat :=
  fetchIdentifierSetLoop transport 1 [] 0

/-! ## PersonalListReconciler hydration
(`executeAuthenticatedUserListFetch`, `VisualNovelList.tsx` lines
732–772) -/

/-- The local leading-`v` normalization used throughout the hydration
block: `id.toLowerCase().startsWith('v') ? id : 'v' + id`. -/
def hydrationNormalizeIdentifier (identifier : String) : String :=
  if jsStartsWith (jsToLower identifier) "v" then identifier else "v" ++ identifier

/-- `hasPlaceholderEntries`: some normalized entry has an empty
(trimmed) title (`VisualNovelList.tsx` lines 732–734). -/
def hasPlaceholderEntries (normalizedVisualNovelEntries : List VisualNovelDatabaseEntry) : Bool :=
  normalizedVisualNovelEntries.any (fun userListEntry => jsTrim userListEntry.title = "")

/-- `distinctVisualNovelIdentifiers` (`VisualNovelList.tsx` lines
738–742): the deduplicated normalized identifiers of **all** normalized
entries. -/
def distinctVisualNovelIdentifiers
    (normalizedVisualNovelEntries : List VisualNovelDatabaseEntry) : List String :=
  jsSetDedup (normalizedVisualNovelEntries.map
    (fun userListEntry => hydrationNormalizeIdentifier userListEntry.id))

/-- `chunkArray` (`VisualNovelList.tsx` lines 318–329): non-positive
chunk size returns the whole list in one chunk; otherwise successive
slices of `chunkSize`. -/
def chunkArray (items : List α) (chunkSize : Nat) : List (List α) :=
  if chunkSize = 0 then [items]
  else if items.isEmpty then []
  else items.take chunkSize :: chunkArray (items.drop chunkSize) chunkSize
  termination_by items.length
  decreasing_by
    rename_i hsize hempty
    simp only [List.length_drop]
    rcases items with _ | ⟨x, xs⟩
    · simp at hempty
    · simp only [List.length_cons]
      omega

/-- The identifiers covered by the hydration batch requests: the chunked
(≤ 100 per request) distinct identifiers, issued only when a placeholder
entry exists (`VisualNovelList.tsx` lines 737–756). -/
def hydrationBatchRequests
    (normalizedVisualNovelEntries : List VisualNovelDatabaseEntry) : List (List String) :=
  if hasPlaceholderEntries normalizedVisualNovelEntries then
    chunkArray (distinctVisualNovelIdentifiers normalizedVisualNovelEntries) 100
  else
    []

/-- `hydratedEntriesByIdentifier` built across the chunk loop
(`VisualNovelList.tsx` lines 743–762): each response entry is keyed by
its normalized identifier; `Map.set` overwrites, which the head-first
association list models (`find?` sees the latest insertion first). -/
def buildHydratedEntriesByIdentifier (batchTransport : List String → List VisualNovelDatabaseEntry)
    (identifierChunks : List (List String)) : List (String × VisualNovelDatabaseEntry) :=
  identifierChunks.foldl
    (fun hydratedMap identifierChunk =>
      (batchTransport identifierChunk).foldl
        (fun innerMap hydratedEntry =>
          (hydrationNormalizeIdentifier hydratedEntry.id, hydratedEntry) :: innerMap)
        hydratedMap)
    []

/-- `Map.get` on the hydrated-entries map. -/
def hydratedMapGet (hydratedMap : List (String × VisualNovelDatabaseEntry))
    (normalizedIdentifier : String) : Option VisualNovelDatabaseEntry :=
  (hydratedMap.find? (fun mapPair => mapPair.1 = normalizedIdentifier)).map (·.2)

/-- The hydration step of `executeAuthenticatedUserListFetch`
(`VisualNovelList.tsx` lines 737–772, before sorting): when a
placeholder exists, every entry is replaced by its hydrated record when
the batch map has one and kept as-is otherwise
(`hydratedEntriesByIdentifier.get(id) ?? userListEntry`); without
placeholders the entries pass through unchanged. -/
def hydrateUserListEntries (batchTransport : List String → List VisualNovelDatabaseEntry)
    (normalizedVisualNovelEntries : List VisualNovelDatabaseEntry) :
    List VisualNovelDatabaseEntry :=
  if hasPlaceholderEntries normalizedVisualNovelEntries then
    let hydratedEntriesByIdentifier :=
      buildHydratedEntriesByIdentifier batchTransport
        (chunkArray (distinctVisualNovelIdentifiers normalizedVisualNovelEntries) 100)
    normalizedVisualNovelEntries.map
      (fun userListEntry =>
        (hydratedMapGet hydratedEntriesByIdentifier
          (hydrationNormalizeIdentifier userListEntry.id)).getD userListEntry)
  else
    normalizedVisualNovelEntries

/-! ## ListBrowsingStateMachine / PaginationController
(`VisualNovelList.tsx`) -/

/-- The component state touched by the fetch flows: the accumulated
entries, the loading flags, the error message, the page counter, the
`hasMore` flag, the mode flag, and the active descriptor. -/
structure ComponentState where
  visualNovelDatabaseEntries : List VisualNovelDatabaseEntry
  isDataLoading : Bool
  isLoadingAdditionalPage : Bool
  networkErrorMessage : Option String
  currentResultPage : Nat
  hasAdditionalResults : Bool
  isViewingUserList : Bool
  activeQueryDescriptor : ListQueryDescriptor
  deriving Repr, DecidableEq

/-- The synchronous prologue of `executeDataFetchOperation`
(`VisualNovelList.tsx` lines 606–613): set the appropriate loading flag
and clear the error message. -/
def dataFetchStart (state : ComponentState) (shouldAppendResults : Bool) : ComponentState :=
  { state with
    isDataLoading := if shouldAppendResults then state.isDataLoading else true
    isLoadingAdditionalPage := if shouldAppendResults then true else state.isLoadingAdditionalPage
    networkErrorMessage := none }

/-- The commit executed when the awaited response of
`executeDataFetchOperation` arrives (`VisualNovelList.tsx` lines
628–634 plus the `finally` block, lines 639–645): the results are
appended or replace the accumulation, page / `hasMore` / descriptor are
taken from this response, the loading flag is cleared.  There is no
staleness check: the commit is unconditional. -/
def dataFetchResolve (state : ComponentState) (queryDescriptor : ListQueryDescriptor)
    (pageNumber : Nat) (shouldAppendResults : Bool) (responsePayload : VisualNovelQueryResponse) :
    ComponentState :=
  { state with
    visualNovelDatabaseEntries :=
      if shouldAppendResults then
        state.visualNovelDatabaseEntries ++ responsePayload.results
      else
        responsePayload.results
    currentResultPage := pageNumber
    hasAdditionalResults := responsePayload.more
    activeQueryDescriptor := queryDescriptor
    isDataLoading := if shouldAppendResults then state.isDataLoading else false
    isLoadingAdditionalPage := if shouldAppendResults then false else state.isLoadingAdditionalPage }

/-- The rejection path of `executeDataFetchOperation`
(`VisualNovelList.tsx` lines 635–645): record the error message and
clear the loading flag. -/
def dataFetchReject (state : ComponentState) (shouldAppendResults : Bool)
    (errorMessage : String) : ComponentState :=
  { state with
    networkErrorMessage := some errorMessage
    isDataLoading := if shouldAppendResults then state.isDataLoading else false
    isLoadingAdditionalPage := if shouldAppendResults then false else state.isLoadingAdditionalPage }

/-- An event in the interleaved life of the component: a fetch starting,
or an in-flight fetch's response arriving (successfully or not).  The
identity of the originating fetch call is carried in the event so a
trace can interleave several calls. -/
inductive FetchEvent where
  | startFetch (queryDescriptor : ListQueryDescriptor) (pageNumber : Nat)
      (shouldAppendResults : Bool)
  | resolveFetch (queryDescriptor : ListQueryDescriptor) (pageNumber : Nat)
      (shouldAppendResults : Bool) (responsePayload : VisualNovelQueryResponse)
  | rejectFetch (shouldAppendResults : Bool) (errorMessage : String)

/-- Single-threaded event step: each event runs its synchronous segment
of `executeDataFetchOperation` to completion (the suspension points are
exactly the awaited network calls). -/
def fetchEventStep (state : ComponentState) : FetchEvent → ComponentState
  | .startFetch _ _ shouldAppendResults => dataFetchStart state shouldAppendResults
  | .resolveFetch queryDescriptor pageNumber shouldAppendResults responsePayload =>
    dataFetchResolve state queryDescriptor pageNumber shouldAppendResults responsePayload
  | .rejectFetch shouldAppendResults errorMessage =>
    dataFetchReject state shouldAppendResults errorMessage

/-- Run a trace of interleaved fetch events. -/
def runFetchTrace (state : ComponentState) (events : List FetchEvent) : ComponentState :=
  events.foldl fetchEventStep state

/-- Shallow embedding of `loadNextPage` combined with the completed
round trip of the append fetch it starts (`VisualNovelList.tsx` lines
794–800 and 606–646): a no-op when viewing the user list, when either
fetch-in-flight flag is set, or when `hasAdditionalResults` is false;
otherwise page `currentResultPage + 1` is fetched for the active
descriptor and appended. -/
def loadNextPageComplete (state : ComponentState) (responsePayload : VisualNovelQueryResponse) :
    ComponentState :=
  if state.isViewingUserList || state.isDataLoading || state.isLoadingAdditionalPage
      || !state.hasAdditionalResults then
    state
  else
    dataFetchResolve (dataFetchStart state true) state.activeQueryDescriptor
      (state.currentResultPage + 1) true responsePayload

/-- Whether `loadNextPage` starts a fetch at all (the guard of
`VisualNovelList.tsx` lines 795–797). -/
def loadNextPageStartsFetch (state : ComponentState) : Bool :=
  !(state.isViewingUserList || state.isDataLoading || state.isLoadingAdditionalPage
      || !state.hasAdditionalResults)

/-- The membership-set commit of `executeUserListIdentifierFetch`
(`VisualNovelList.tsx` lines 884–895): the arriving identifier set is
committed only while the effect's lifecycle flag is uncancelled; a
cancelled flow leaves the current set untouched. -/
def commitUserListIdentifierFetch (hasLifecycleBeenCancelled : Bool)
    (currentIdentifierSet arrivingIdentifierSet : List String) : List String :=
  if hasLifecycleBeenCancelled then currentIdentifierSet else arrivingIdentifierSet

/-! ## Description markup renderer (`normalizeUrl` / `renderTagNode`)

The renderer's outputs (React nodes) are modelled as a small tree type.
The host's WHATWG `new URL(...)` constructor is external to the
repository; it is modelled as an abstract parser argument
`parse : String → Option ParsedUrl` (`none` = the constructor throws),
so every theorem quantifies over what the host parser does. -/

/-- A parsed URL as `normalizeUrl` inspects it: the `protocol` (scheme
plus trailing colon, e.g. `"https:"`) and the `toString()`
serialization. -/
structure ParsedUrl where
  protocol : String
  serialized : String
  deriving Repr, DecidableEq

/-- The rendered node tree (`<strong>`, `<em>`, `<u>`, `<span>`, `<a>`,
text and `<br/>`). -/
inductive RenderedNode where
  | text (s : String)
  | lineBreak
  | strongNode (children : List RenderedNode)
  | emNode (children : List RenderedNode)
  | uNode (children : List RenderedNode)
  | spanNode (children : List RenderedNode)
  | anchorNode (href : String) (children : List RenderedNode)
  deriving Repr

/-- A `ParsedTagNode` of the markup parser: tag name (`b`, `i`, `u`,
`url` or `root`), the optional `url=` argument and the children. -/
structure ParsedTagNode where
  tag : String
  url : Option String
  children : List RenderedNode

/-- `extractPlainText` (markup module lines 13–18): concatenate the
string children (non-strings map to `''`) and trim. -/
def extractPlainText (nodes : List RenderedNode) : String :=
  jsTrim (String.join (nodes.map (fun node =>
    match node with
    | .text s => s
    | _ => "")))

/-- Whether a character may appear in a scheme after the first:
`[a-zA-Z\d+\-.]`. -/
def schemeBodyCharOk (c : Char) : Bool :=
  (c.isAlpha && c.toNat < 128) || c.isDigit || c = '+' || c = '-' || c = '.'

/-- Scan for the colon terminating a scheme: succeeds on the first `:`,
fails on the first character outside the scheme class. -/
def schemeColonScan : List Char → Bool
  | [] => false
  | c :: rest =>
    if c = ':' then true
    else if schemeBodyCharOk c then schemeColonScan rest
    else false

/-- The test `/^[a-zA-Z][a-zA-Z\d+\-.]*:/.test(trimmedUrl)` of
`normalizeUrl` (markup module line 26). -/
def hasExplicitProtocol (s : String) : Bool :=
  match s.toList with
  | [] => false
  | c :: rest => (c.isAlpha && c.toNat < 128) && schemeColonScan rest

/-- The string `normalizeUrl` hands to `new URL(...)`: the trimmed
input, prefixed by `https://` when it carries no explicit scheme. -/
def urlWithProtocol (rawUrl : String) : String :=
  let trimmedUrl := jsTrim rawUrl
  if hasExplicitProtocol trimmedUrl then trimmedUrl else "https://" ++ trimmedUrl

/-- Shallow embedding of `normalizeUrl` (markup module lines 20–40):
empty after trimming ⇒ `null`; prefix `https://` when no scheme is
present; parse; return the serialization only when the parsed protocol
is `http:`, `https:` or `mailto:`, otherwise `null` (also when the URL
constructor throws). -/
def normalizeUrl (parse : String → Option ParsedUrl) (rawUrl : String) : Option String :=
  let trimmedUrl := jsTrim rawUrl
  if trimmedUrl.length = 0 then none
  else
    match parse (urlWithProtocol rawUrl) with
    | none => none
    | some parsedUrl =>
      if parsedUrl.protocol = "http:" || parsedUrl.protocol = "https:"
          || parsedUrl.protocol = "mailto:" then
        some parsedUrl.serialized
      else
        none

/-- Shallow embedding of `renderTagNode` (markup module lines 42–66):
`b`/`i`/`u` wrap their children; any other tag (the parser only builds
`url` here) resolves `node.url ?? extractPlainText(children)` through
`normalizeUrl` and emits an anchor on success or a plain `<span>` on
`null`. -/
def renderTagNode (parse : String → Option ParsedUrl) (node : ParsedTagNode) : RenderedNode :=
  if node.tag = "b" then .strongNode node.children
  else if node.tag = "i" then .emNode node.children
  else if node.tag = "u" then .uNode node.children
  else
    match normalizeUrl parse (node.url.getD (extractPlainText node.children)) with
    | none => .spanNode node.children
    | some resolvedUrl => .anchorNode resolvedUrl node.children

/-! ## Helper lemmas -/

/-- `buildFiltersFromQueryDescriptor` is the singleton-unwrap /
AND-wrap of `assembledFilterClauses`. -/
theorem buildFilters_eq_match (q : ListQueryDescriptor) :
    buildFiltersFromQueryDescriptor q =
      match assembledFilterClauses q with
      | [singleClause] => singleClause
      | clauses => .andNode clauses := rfl

/-- The assembled clause list always starts with the primary clause. -/
theorem assembledFilterClauses_ne_nil (q : ListQueryDescriptor) :
    assembledFilterClauses q ≠ [] := by
  unfold assembledFilterClauses
  simp

theorem jsTrim_empty : jsTrim "" = "" := by decide

theorem cacheStoreGet_set_mapped {α : Type} (cacheKey : String) (entry : CacheEntry α) :
    ∀ store : CacheStore α, store.any (fun entryPair => entryPair.1 = cacheKey) = true →
      cacheStoreGet
        (store.map (fun entryPair =>
          if entryPair.1 = cacheKey then (cacheKey, entry) else entryPair)) cacheKey
        = some entry := by
  intro store h
  induction store with
  | nil => simp at h
  | cons headPair tailStore ih =>
    by_cases hk : headPair.1 = cacheKey
    · simp [cacheStoreGet, List.find?, hk]
    · have htail : tailStore.any (fun entryPair => entryPair.1 = cacheKey) = true := by
        simpa [List.any_cons, hk] using h
      simpa [cacheStoreGet, List.find?, hk] using ih htail

theorem cacheStoreGet_append_absent {α : Type} (cacheKey : String) (entry : CacheEntry α) :
    ∀ store : CacheStore α, store.any (fun entryPair => entryPair.1 = cacheKey) = false →
      cacheStoreGet (store ++ [(cacheKey, entry)]) cacheKey = some entry := by
  intro store h
  induction store with
  | nil => simp [cacheStoreGet, List.find?]
  | cons headPair tailStore ih =>
    have hk : ¬ headPair.1 = cacheKey := by
      intro hcontra
      simp [List.any_cons, hcontra] at h
    have htail : tailStore.any (fun entryPair => entryPair.1 = cacheKey) = false := by
      simpa [List.any_cons, hk] using h
    simpa [cacheStoreGet, List.find?, hk] using ih htail

/-- A freshly written key reads back the just-written entry. -/
theorem cacheStoreGet_writeToCache {α : Type} (now : Nat) (store : CacheStore α)
    (cacheKey : String) (payload : α) :
    cacheStoreGet (writeToCache now store cacheKey payload) cacheKey
      = some { expiresAt := now + CACHE_TIME_TO_LIVE_MILLISECONDS, payload := payload } := by
  unfold writeToCache cacheStoreSet
  by_cases h : store.any (fun entryPair => entryPair.1 = cacheKey) = true
  · rw [if_pos h]
    exact cacheStoreGet_set_mapped cacheKey _ store h
  · rw [if_neg h]
    exact cacheStoreGet_append_absent cacheKey _ store (Bool.eq_false_iff.mpr h)

/-- `List.find?` on a strictly sorted list yields the least element
satisfying the predicate: every smaller member fails it. -/
theorem find?_sorted_first {p : Int → Bool} :
    ∀ l : List Int, l.Sorted (· < ·) → ∀ k, l.find? p = some k →
      p k = true ∧ k ∈ l ∧ ∀ j ∈ l, j < k → p j = false := by
  intro l
  induction l with
  | nil => intro _ k hfind; simp [List.find?] at hfind
  | cons x xs ih =>
    intro hsorted k hfind
    have hxlt : ∀ j ∈ xs, x < j := fun j hj => (List.pairwise_cons.mp hsorted).1 j hj
    have hsorted' : xs.Sorted (· < ·) := (List.pairwise_cons.mp hsorted).2
    cases hx : p x with
    | true =>
      have hk : k = x := by
        rw [List.find?] at hfind
        rw [hx] at hfind
        exact (Option.some_inj.mp hfind).symm
      subst hk
      refine ⟨hx, List.mem_cons_self _ _, ?_⟩
      intro j hj hjk
      rcases List.mem_cons.mp hj with hj | hj
      · exact absurd (hj ▸ hjk) (lt_irrefl _)
      · exact absurd hjk (not_lt.mpr (le_of_lt (hxlt j hj)))
    | false =>
      have hfind' : xs.find? p = some k := by
        rw [List.find?] at hfind
        rwa [hx] at hfind
      obtain ⟨hpk, hkmem, hleast⟩ := ih hsorted' k hfind'
      refine ⟨hpk, List.mem_cons_of_mem _ hkmem, ?_⟩
      intro j hj hjk
      rcases List.mem_cons.mp hj with hj | hj
      · exact hj ▸ hx
      · exact hleast j hj hjk

/-! ## Claim theorems -/

/-- **C4.** For every query descriptor, `buildFiltersFromQueryDescriptor`
returns the single leaf unwrapped when exactly one clause results and
otherwise wraps all clauses in one AND node; a text-kind descriptor with
a non-empty term and no extra filters yields the bare free-text leaf,
and the same term plus two selected languages yields an AND of the text
leaf and an OR of the two language equality leaves. -/
theorem c4_filter_wrap_contract :
    (∀ (q : ListQueryDescriptor) (singleClause : FilterExpr),
      assembledFilterClauses q = [singleClause] →
        buildFiltersFromQueryDescriptor q = singleClause)
    ∧ (∀ q : ListQueryDescriptor, 2 ≤ (assembledFilterClauses q).length →
        buildFiltersFromQueryDescriptor q = .andNode (assembledFilterClauses q))
    ∧ (∀ (term : String) (sort : ListSortState), jsTrim term ≠ "" →
        buildFiltersFromQueryDescriptor
          { kind := "text", term := term, tagIdentifier := none, developerIdentifier := none
            filters := { languages := [], originalLanguage := ""
                         onlyWithScreenshots := false, onlyWithDescription := false }
            sort := sort }
          = .cmpStr "search" "=" term)
    ∧ (∀ (term firstLanguage secondLanguage : String) (sort : ListSortState),
        jsTrim term ≠ "" →
        buildFiltersFromQueryDescriptor
          { kind := "text", term := term, tagIdentifier := none, developerIdentifier := none
            filters := { languages := [firstLanguage, secondLanguage], originalLanguage := ""
                         onlyWithScreenshots := false, onlyWithDescription := false }
            sort := sort }
          = .andNode [.cmpStr "search" "=" term,
              .orNode [.cmpStr "lang" "=" firstLanguage, .cmpStr "lang" "=" secondLanguage]]) := by
  refine ⟨?_, ?_, ?_, ?_⟩
  · intro q singleClause h
    rw [buildFilters_eq_match, h]
  · intro q h
    rw [buildFilters_eq_match]
    rcases hq : assembledFilterClauses q with _ | ⟨c1, _ | ⟨c2, rest⟩⟩
    · exact absurd hq (assembledFilterClauses_ne_nil q)
    · rw [hq] at h; simp at h
    · rfl
  · intro term sort h
    simp [buildFiltersFromQueryDescriptor, jsTruthyStr, h, jsTrim_empty]
  · intro term firstLanguage secondLanguage sort h
    simp [buildFiltersFromQueryDescriptor, jsTruthyStr, h, jsTrim_empty]

/-- Witness for C4 at the spec's concrete descriptor
(`{kind: text, term: "Steins;Gate"}`, then the same plus two
languages). -/
theorem c4_filter_wrap_witness :
    buildFiltersFromQueryDescriptor
      { kind := "text", term := "Steins;Gate", tagIdentifier := none
        developerIdentifier := none
        filters := { languages := [], originalLanguage := ""
                     onlyWithScreenshots := false, onlyWithDescription := false }
        sort := { sortField := "default", direction := "desc" } }
      = .cmpStr "search" "=" "Steins;Gate"
    ∧ buildFiltersFromQueryDescriptor
      { kind := "text", term := "Steins;Gate", tagIdentifier := none
        developerIdentifier := none
        filters := { languages := ["en", "ja"], originalLanguage := ""
                     onlyWithScreenshots := false, onlyWithDescription := false }
        sort := { sortField := "default", direction := "desc" } }
      = .andNode [.cmpStr "search" "=" "Steins;Gate",
          .orNode [.cmpStr "lang" "=" "en", .cmpStr "lang" "=" "ja"]] :=
  ⟨c4_filter_wrap_contract.2.2.1 "Steins;Gate" _ (by decide),
   c4_filter_wrap_contract.2.2.2 "Steins;Gate" "en" "ja" _ (by decide)⟩

/-- **C5.** A cache read never returns an entry once the current time is
past its `expiresAt` timestamp: a `put` followed immediately by a `get`
on the same key returns the cached payload, while a `get` after the
five-minute TTL has elapsed is a miss that evicts the entry. -/
theorem c5_cache_expiry_contract :
    (∀ (α : Type) (store : CacheStore α) (cacheKey : String) (payload : α) (now : Nat),
      readFromCache now (writeToCache now store cacheKey payload) cacheKey
        = (some payload, writeToCache now store cacheKey payload))
    ∧ (∀ (α : Type) (store : CacheStore α) (cacheKey : String) (payload : α) (now later : Nat),
      later > now + CACHE_TIME_TO_LIVE_MILLISECONDS →
        readFromCache later (writeToCache now store cacheKey payload) cacheKey
          = (none, cacheStoreDelete (writeToCache now store cacheKey payload) cacheKey))
    ∧ (∀ (α : Type) (store : CacheStore α) (cacheKey : String) (entry : CacheEntry α)
        (now : Nat),
      cacheStoreGet store cacheKey = some entry → now > entry.expiresAt →
        readFromCache now store cacheKey = (none, cacheStoreDelete store cacheKey))
    ∧ (∀ (α : Type) (store newStore : CacheStore α) (cacheKey : String) (payload : α)
        (now : Nat),
      readFromCache now store cacheKey = (some payload, newStore) →
        ∃ entry : CacheEntry α, cacheStoreGet store cacheKey = some entry
          ∧ payload = entry.payload ∧ ¬ now > entry.expiresAt) := by
  refine ⟨?_, ?_, ?_, ?_⟩
  · intro α store cacheKey payload now
    unfold readFromCache
    rw [cacheStoreGet_writeToCache]
    simp
  · intro α store cacheKey payload now later hlate
    unfold readFromCache
    rw [cacheStoreGet_writeToCache]
    simp [hlate]
  · intro α store cacheKey entry now hget hexp
    unfold readFromCache
    rw [hget]
    simp [hexp]
  · intro α store newStore cacheKey payload now hread
    unfold readFromCache at hread
    rcases hget : cacheStoreGet store cacheKey with _ | entry
    · rw [hget] at hread; simp at hread
    · rw [hget] at hread
      by_cases hexp : now > entry.expiresAt
      · simp [hexp] at hread
      · simp [hexp] at hread
        exact ⟨entry, rfl, hread.1.symm, hexp⟩

/-- Witness for C5 at a concrete store, key and clock values. -/
theorem c5_cache_expiry_witness :
    readFromCache 1000 (writeToCache 1000 ([] : CacheStore String) "fingerprint" "payload")
        "fingerprint"
      = (some "payload", writeToCache 1000 [] "fingerprint" "payload")
    ∧ readFromCache (1000 + CACHE_TIME_TO_LIVE_MILLISECONDS + 1)
        (writeToCache 1000 ([] : CacheStore String) "fingerprint" "payload") "fingerprint"
      = (none, cacheStoreDelete (writeToCache 1000 [] "fingerprint" "payload") "fingerprint") :=
  ⟨c5_cache_expiry_contract.1 String [] "fingerprint" "payload" 1000,
   c5_cache_expiry_contract.2.1 String [] "fingerprint" "payload" 1000
     (1000 + CACHE_TIME_TO_LIVE_MILLISECONDS + 1) (by omega)⟩

/-- **C7.** Status derivation scans a list entry's label set against the
six fixed status identifiers in ascending priority order
`[1, 2, 3, 4, 5, 6]` and takes the first match (labels `[4, 2]` derive
status 2, finished); when no status label matches, the per-card display
lookup defaults to wishlist (5), and the status-map accumulation never
records an inferred status for such an entry. -/
theorem c7_status_derivation_contract :
    deriveStatusLabelFromUnknownLabels (some [.num 4, .num 2]) = some 2
    ∧ (∀ (labels : List RawLabel) (statusLabel : Int),
        deriveStatusLabelFromUnknownLabels (some labels) = some statusLabel →
          statusLabel ∈ STATUS_LABEL_IDENTIFIERS
          ∧ (labels.filterMap normalizeRawLabel).contains statusLabel = true
          ∧ ∀ lower ∈ STATUS_LABEL_IDENTIFIERS, lower < statusLabel →
              (labels.filterMap normalizeRawLabel).contains lower = false)
    ∧ (∀ (statusByIdentifier : List (String × Int)) (normalizedIdentifier : String),
        statusByIdentifier.find?
            (fun statusPair => statusPair.1 = normalizedIdentifier) = none →
          initialStatusLabelIdentifier statusByIdentifier normalizedIdentifier = 5)
    ∧ (∀ (statusMap : List (String × Int)) (identifier : Option String),
        statusMapInsertStep statusMap identifier none = statusMap) := by
  refine ⟨by decide, ?_, ?_, ?_⟩
  · intro labels statusLabel hderive
    have hsorted : STATUS_LABEL_IDENTIFIERS.Sorted (· < ·) := by decide
    have hfind :
        STATUS_LABEL_IDENTIFIERS.find?
          (fun statusLabelIdentifier =>
            (labels.filterMap normalizeRawLabel).contains statusLabelIdentifier)
          = some statusLabel := by
      simpa [deriveStatusLabelFromUnknownLabels] using hderive
    obtain ⟨hmatch, hmem, hleast⟩ :=
      find?_sorted_first STATUS_LABEL_IDENTIFIERS hsorted statusLabel hfind
    exact ⟨hmem, hmatch, hleast⟩
  · intro statusByIdentifier normalizedIdentifier hmiss
    simp [initialStatusLabelIdentifier, hmiss]
  · intro statusMap identifier
    cases identifier <;> rfl

/-- Witness for C7: the derived status of `[4, 2]` satisfies the
first-match contract, and a miss in the status map displays as
wishlist. -/
theorem c7_status_derivation_witness :
    ((2 : Int) ∈ STATUS_LABEL_IDENTIFIERS
      ∧ (([RawLabel.num 4, RawLabel.num 2].filterMap normalizeRawLabel).contains 2 = true)
      ∧ ∀ lower ∈ STATUS_LABEL_IDENTIFIERS, lower < 2 →
          (([RawLabel.num 4, RawLabel.num 2].filterMap normalizeRawLabel).contains lower
            = false))
    ∧ initialStatusLabelIdentifier [] "v17" = 5 :=
  ⟨c7_status_derivation_contract.2.1 [RawLabel.num 4, RawLabel.num 2] 2 (by decide),
   c7_status_derivation_contract.2.2.1 [] "v17" (by decide)⟩

/-- **C9.** Each personal-list write operation (add, status update,
remove) clears the entire personal-list read cache only after the remote
responds with success; if the request fails and the operation throws,
the personal-list cache contents are left unchanged. -/
theorem c9_cache_invalidation_on_success_only :
    ∀ (transport : Nat → HttpResponse) (cache : CacheStore String),
      ((∀ errorMessage : String,
        (addVisualNovelToAuthenticatedUserList transport cache).outcome = .error errorMessage →
          (addVisualNovelToAuthenticatedUserList transport cache).userListQueryCache = cache)
      ∧ ((addVisualNovelToAuthenticatedUserList transport cache).outcome = .ok () →
          (addVisualNovelToAuthenticatedUserList transport cache).userListQueryCache = []))
      ∧ ((∀ errorMessage : String,
        (updateAuthenticatedUserVisualNovelStatusLabel transport cache).outcome
            = .error errorMessage →
          (updateAuthenticatedUserVisualNovelStatusLabel transport cache).userListQueryCache
            = cache)
      ∧ ((updateAuthenticatedUserVisualNovelStatusLabel transport cache).outcome = .ok () →
          (updateAuthenticatedUserVisualNovelStatusLabel transport cache).userListQueryCache
            = []))
      ∧ ((∀ errorMessage : String,
        (removeVisualNovelFromAuthenticatedUserList transport cache).outcome
            = .error errorMessage →
          (removeVisualNovelFromAuthenticatedUserList transport cache).userListQueryCache
            = cache)
      ∧ ((removeVisualNovelFromAuthenticatedUserList transport cache).outcome = .ok () →
          (removeVisualNovelFromAuthenticatedUserList transport cache).userListQueryCache
            = [])) := by
  intro transport cache
  by_cases h0 : (transport 0).ok = true <;>
    by_cases h400 : (transport 0).status = 400 <;>
    by_cases h1 : (transport 1).ok = true <;>
    refine ⟨⟨?_, ?_⟩, ⟨?_, ?_⟩, ⟨?_, ?_⟩⟩ <;>
    simp_all [addVisualNovelToAuthenticatedUserList,
      updateAuthenticatedUserVisualNovelStatusLabel,
      removeVisualNovelFromAuthenticatedUserList]

/-- Witness for C9: a rejected add leaves a non-empty cache untouched;
a successful add clears it. -/
theorem c9_cache_invalidation_witness :
    (addVisualNovelToAuthenticatedUserList
        (fun _ => { ok := false, status := 500, bodyText := "" })
        [("fingerprint", { expiresAt := 9, payload := "cached" })]).userListQueryCache
      = [("fingerprint", { expiresAt := 9, payload := "cached" })]
    ∧ (addVisualNovelToAuthenticatedUserList
        (fun _ => { ok := true, status := 200, bodyText := "" })
        [("fingerprint", { expiresAt := 9, payload := "cached" })]).userListQueryCache
      = [] :=
  ⟨(c9_cache_invalidation_on_success_only
      (fun _ => { ok := false, status := 500, bodyText := "" })
      [("fingerprint", { expiresAt := 9, payload := "cached" })]).1.1 _ rfl,
   (c9_cache_invalidation_on_success_only
      (fun _ => { ok := true, status := 200, bodyText := "" })
      [("fingerprint", { expiresAt := 9, payload := "cached" })]).1.2 rfl⟩

/-- **C6 counterexample.** The claim says any client-error rejection of
the newer payload shape triggers the one-shot compatibility retry; but
on HTTP 422 — a client-error status — the add flow sends no second
request and surfaces the failure immediately: only the `labels_set`
request ever goes on the wire. -/
theorem c6_fallback_counterexample :
    ((addVisualNovelToAuthenticatedUserList
        (fun _ => { ok := false, status := 422, bodyText := "" }) []).requestsSent
      = [.labelsSetPayload])
    ∧ (400 ≤ 422 ∧ 422 < 500)
    ∧ ((addVisualNovelToAuthenticatedUserList
        (fun _ => { ok := false, status := 422, bodyText := "" }) []).requestsSent.length ≠ 2)
    ∧ (∃ errorMessage,
        (addVisualNovelToAuthenticatedUserList
          (fun _ => { ok := false, status := 422, bodyText := "" }) []).outcome
          = .error errorMessage) := by
  refine ⟨by decide, by decide, by decide, ?_⟩
  exact ⟨_, rfl⟩

/-- **C6 (amended).** The compatibility fallback fires only when the
remote rejects the newer shape with HTTP **400** exactly: then the add
flow retries once with the legacy `labels` payload and the ulist read
retries once with the minimal field list; a second failure surfaces as
an error with no further retry (never more than two requests), and any
other failing status — client-error or not — surfaces immediately
without a fallback request. -/
theorem c6_fallback_exactly_once_on_400 :
    ∀ (transport : Nat → HttpResponse) (cache : CacheStore String),
      (((transport 0).ok = false → (transport 0).status = 400 →
        (addVisualNovelToAuthenticatedUserList transport cache).requestsSent
          = [.labelsSetPayload, .labelsLegacyPayload]
        ∧ ((transport 1).ok = false →
            ∃ errorMessage, (addVisualNovelToAuthenticatedUserList transport cache).outcome
              = .error errorMessage))
      ∧ ((transport 0).ok = false → (transport 0).status ≠ 400 →
        (addVisualNovelToAuthenticatedUserList transport cache).requestsSent
          = [.labelsSetPayload]
        ∧ ∃ errorMessage, (addVisualNovelToAuthenticatedUserList transport cache).outcome
            = .error errorMessage)
      ∧ (addVisualNovelToAuthenticatedUserList transport cache).requestsSent.length ≤ 2)
      ∧ (((transport 0).ok = false → (transport 0).status = 400 →
        (fetchAuthenticatedUserVisualNovelListRequestPath transport).2
          = [.labelsEnabledFields, .minimalCompatibilityFields]
        ∧ ((transport 1).ok = false →
            ∃ errorMessage, (fetchAuthenticatedUserVisualNovelListRequestPath transport).1
              = .error errorMessage))
      ∧ ((transport 0).ok = false → (transport 0).status ≠ 400 →
        (fetchAuthenticatedUserVisualNovelListRequestPath transport).2
          = [.labelsEnabledFields]
        ∧ ∃ errorMessage, (fetchAuthenticatedUserVisualNovelListRequestPath transport).1
            = .error errorMessage)
      ∧ (fetchAuthenticatedUserVisualNovelListRequestPath transport).2.length ≤ 2) := by
  intro transport cache
  by_cases h0 : (transport 0).ok = true <;>
    by_cases h400 : (transport 0).status = 400 <;>
    by_cases h1 : (transport 1).ok = true <;>
    refine ⟨⟨?_, ?_, ?_⟩, ⟨?_, ?_, ?_⟩⟩ <;>
    simp_all [addVisualNovelToAuthenticatedUserList,
      fetchAuthenticatedUserVisualNovelListRequestPath]

/-- Witness for C6 (amended): a 400 rejection followed by a second
failure yields exactly the two request shapes and a surfaced error. -/
theorem c6_fallback_witness :
    (addVisualNovelToAuthenticatedUserList
        (fun _ => { ok := false, status := 400, bodyText := "" }) []).requestsSent
      = [.labelsSetPayload, .labelsLegacyPayload]
    ∧ ∃ errorMessage,
        (addVisualNovelToAuthenticatedUserList
          (fun _ => { ok := false, status := 400, bodyText := "" }) []).outcome
          = .error errorMessage := by
  obtain ⟨hshapes, herr⟩ :=
    ((c6_fallback_exactly_once_on_400
      (fun _ => { ok := false, status := 400, bodyText := "" }) []).1).1 rfl rfl
  exact ⟨hshapes, herr rfl⟩

theorem fetchIdentifierSetLoop_count_le (transport : Nat → UlistPageResponse) :
    ∀ (fuel page count : Nat) (identifierSet : List String),
      MAXIMUM_USER_LIST_PAGES + 1 - page ≤ fuel →
      (fetchIdentifierSetLoop transport page identifierSet count).2
        ≤ count + (MAXIMUM_USER_LIST_PAGES + 1 - page) := by
  intro fuel
  induction fuel with
  | zero =>
    intro page count identifierSet hfuel
    have hpage : page > MAXIMUM_USER_LIST_PAGES := by omega
    rw [fetchIdentifierSetLoop]
    simp [hpage]
  | succ fuel ih =>
    intro page count identifierSet hfuel
    rw [fetchIdentifierSetLoop]
    by_cases hpage : page > MAXIMUM_USER_LIST_PAGES
    · simp [hpage]
    · simp only [hpage, if_false]
      by_cases hok : !(transport page).ok
      · simp [hok]
        omega
      · simp only [Bool.not_eq_true] at hok
        by_cases hmore : (transport page).more.getD false
        · have := ih (page + 1) (count + 1)
            ((transport page).resultIds.foldl ulistIdentifierSetInsert identifierSet)
            (by omega)
          simp [hok, hmore]
          omega
        · simp [hok, hmore]
          omega

theorem fetchIdentifierSetLoop_count_eq_of_all_more (transport : Nat → UlistPageResponse)
    (hok : ∀ p, (transport p).ok = true)
    (hmore : ∀ p, (transport p).more = some true) :
    ∀ (fuel page count : Nat) (identifierSet : List String),
      MAXIMUM_USER_LIST_PAGES + 1 - page ≤ fuel →
      (fetchIdentifierSetLoop transport page identifierSet count).2
        = count + (MAXIMUM_USER_LIST_PAGES + 1 - page) := by
  intro fuel
  induction fuel with
  | zero =>
    intro page count identifierSet hfuel
    have hpage : page > MAXIMUM_USER_LIST_PAGES := by omega
    rw [fetchIdentifierSetLoop]
    simp [hpage]
    omega
  | succ fuel ih =>
    intro page count identifierSet hfuel
    rw [fetchIdentifierSetLoop]
    by_cases hpage : page > MAXIMUM_USER_LIST_PAGES
    · simp [hpage]
      omega
    · have := ih (page + 1) (count + 1)
        ((transport page).resultIds.foldl ulistIdentifierSetInsert identifierSet)
        (by omega)
      simp [hpage, hok page, hmore page]
      omega

theorem fetchIdentifierSetLoop_count_stops_at (transport : Nat → UlistPageResponse)
    (stopPage : Nat) (hstople : stopPage ≤ MAXIMUM_USER_LIST_PAGES)
    (hbefore : ∀ p, p < stopPage → (transport p).ok = true ∧ (transport p).more = some true)
    (hstopok : (transport stopPage).ok = true)
    (hstopmore : (transport stopPage).more.getD false = false) :
    ∀ (fuel page count : Nat) (identifierSet : List String),
      MAXIMUM_USER_LIST_PAGES + 1 - page ≤ fuel →
      page ≤ stopPage →
      (fetchIdentifierSetLoop transport page identifierSet count).2
        = count + (stopPage + 1 - page) := by
  intro fuel
  induction fuel with
  | zero =>
    intro page count identifierSet hfuel hle
    omega
  | succ fuel ih =>
    intro page count identifierSet hfuel hle
    rw [fetchIdentifierSetLoop]
    have hpage : ¬ page > MAXIMUM_USER_LIST_PAGES := by omega
    by_cases hstop : page = stopPage
    · subst hstop
      simp [hpage, hstopok, hstopmore]
    · have hlt : page < stopPage := by omega
      obtain ⟨hpok, hpmore⟩ := hbefore page hlt
      have := ih (page + 1) (count + 1)
        ((transport page).resultIds.foldl ulistIdentifierSetInsert identifierSet)
        (by omega) (by omega)
      simp [hpage, hpok, hpmore]
      omega

/-- **C8.** The membership-set fetch of the user's personal list pages
through results sequentially and issues at most 40 page requests,
terminating even when every response reports `more = true` (then it
issues exactly 40); it stops earlier as soon as a response's `more`
flag is false or missing. -/
theorem c8_membership_fetch_bounded :
    (∀ transport : Nat → UlistPageResponse,
      (fetchAuthenticatedUserVisualNovelIdentifierSet transport).2 ≤ MAXIMUM_USER_LIST_PAGES)
    ∧ (∀ transport : Nat → UlistPageResponse,
        (∀ p, (transport p).ok = true) → (∀ p, (transport p).more = some true) →
        (fetchAuthenticatedUserVisualNovelIdentifierSet transport).2
          = MAXIMUM_USER_LIST_PAGES)
    ∧ (∀ (transport : Nat → UlistPageResponse) (stopPage : Nat),
        1 ≤ stopPage → stopPage ≤ MAXIMUM_USER_LIST_PAGES →
        (∀ p, p < stopPage → (transport p).ok = true ∧ (transport p).more = some true) →
        (transport stopPage).ok = true →
        (transport stopPage).more.getD false = false →
        (fetchAuthenticatedUserVisualNovelIdentifierSet transport).2 = stopPage) := by
  refine ⟨?_, ?_, ?_⟩
  · intro transport
    have := fetchIdentifierSetLoop_count_le transport MAXIMUM_USER_LIST_PAGES 1 0 [] (by decide)
    simpa [fetchAuthenticatedUserVisualNovelIdentifierSet] using this
  · intro transport hok hmore
    have := fetchIdentifierSetLoop_count_eq_of_all_more transport hok hmore
      MAXIMUM_USER_LIST_PAGES 1 0 [] (by decide)
    simpa [fetchAuthenticatedUserVisualNovelIdentifierSet] using this
  · intro transport stopPage hge hle hbefore hstopok hstopmore
    have := fetchIdentifierSetLoop_count_stops_at transport stopPage hle hbefore hstopok
      hstopmore MAXIMUM_USER_LIST_PAGES 1 0 [] (by decide) hge
    rw [fetchAuthenticatedUserVisualNovelIdentifierSet, this]
    omega

/-- Witness for C8: a transport that always reports `more = true` is cut
off at exactly 40 page requests, and one whose third page omits `more`
stops after 3 requests. -/
theorem c8_membership_fetch_witness :
    (fetchAuthenticatedUserVisualNovelIdentifierSet
      (fun _ => { ok := true, status := 200, resultIds := [], more := some true })).2
      = MAXIMUM_USER_LIST_PAGES
    ∧ (fetchAuthenticatedUserVisualNovelIdentifierSet
      (fun p => { ok := true, status := 200, resultIds := []
                  more := if p < 3 then some true else none })).2 = 3 :=
  ⟨c8_membership_fetch_bounded.2.1 _ (fun _ => rfl) (fun _ => rfl),
   c8_membership_fetch_bounded.2.2 _ 3 (by decide) (by decide)
     (fun p hp => by
        refine ⟨rfl, ?_⟩
        simp only [hp, if_pos])
     rfl (by decide)⟩

/-- Concatenating the chunks of a list recovers the list (for a positive
chunk size). -/
theorem chunkArray_join {α : Type} (chunkSize : Nat) (hsize : chunkSize ≠ 0) :
    ∀ items : List α, (chunkArray items chunkSize).flatten = items := by
  have hgen : ∀ (bound : Nat) (items : List α), items.length ≤ bound →
      (chunkArray items chunkSize).flatten = items := by
    intro bound
    induction bound with
    | zero =>
      intro items hlen
      have : items = [] := List.length_eq_zero.mp (Nat.le_zero.mp hlen)
      subst this
      rw [chunkArray]
      simp [hsize]
    | succ bound ih =>
      intro items hlen
      rw [chunkArray]
      cases items with
      | nil => simp [hsize]
      | cons headItem tailItems =>
        simp only [hsize, if_false, List.isEmpty_cons, Bool.false_eq_true, if_false]
        rw [List.flatten_cons]
        rw [ih ((headItem :: tailItems).drop chunkSize)
          (by simp only [List.length_drop, List.length_cons] at hlen ⊢; omega)]
        exact List.take_append_drop chunkSize (headItem :: tailItems)
  intro items
  exact hgen items.length items le_rfl

/-- An all-empty batch transport builds an empty hydration map. -/
theorem buildHydratedEntriesByIdentifier_empty_transport :
    ∀ identifierChunks : List (List String),
      buildHydratedEntriesByIdentifier (fun _ => []) identifierChunks = [] := by
  intro identifierChunks
  induction identifierChunks with
  | nil => rfl
  | cons headChunk tailChunks ih =>
    simp [buildHydratedEntriesByIdentifier, List.foldl] at ih ⊢

/-- The personal-list entry `{id: "v1", title: ""}` of the spec's
example: a placeholder (empty title). -/
def c2PlaceholderEntry : VisualNovelDatabaseEntry :=
  { id := "v1", title := "", rating := none, image := none }

/-- The personal-list entry `{id: "v2", title: "Known"}` of the spec's
example: already hydrated. -/
def c2KnownEntry : VisualNovelDatabaseEntry :=
  { id := "v2", title := "Known", rating := none, image := none }

/-- **C2 counterexample.** On the spec's own example
`[{id: "v1", title: ""}, {id: "v2", title: "Known"}]` the hydration
batch covers the identifiers of **all** entries, including the
non-placeholder `v2`: the claimed request set `["v1"]` is not what is
issued. -/
theorem c2_hydration_batch_counterexample :
    (hydrationBatchRequests [c2PlaceholderEntry, c2KnownEntry]).flatten = ["v1", "v2"]
    ∧ jsTrim c2KnownEntry.title ≠ ""
    ∧ "v2" ∈ (hydrationBatchRequests [c2PlaceholderEntry, c2KnownEntry]).flatten
    ∧ (hydrationBatchRequests [c2PlaceholderEntry, c2KnownEntry]).flatten ≠ ["v1"] := by
  have hplaceholder : hasPlaceholderEntries [c2PlaceholderEntry, c2KnownEntry] = true := by
    decide
  have hjoin : (hydrationBatchRequests [c2PlaceholderEntry, c2KnownEntry]).flatten
      = distinctVisualNovelIdentifiers [c2PlaceholderEntry, c2KnownEntry] := by
    rw [hydrationBatchRequests, if_pos hplaceholder]
    exact chunkArray_join 100 (by decide) _
  have hids : distinctVisualNovelIdentifiers [c2PlaceholderEntry, c2KnownEntry]
      = ["v1", "v2"] := by decide
  rw [hjoin, hids]
  exact ⟨rfl, by decide, by decide, by decide⟩

/-- **C2 (amended).** During the personal-list full fetch a hydration
batch is issued only when at least one placeholder (empty-title) entry
exists, but it then covers the deduplicated normalized identifiers of
**all** entries, not only the placeholders; an entry whose identifier
gets no match from the batch lookup is kept in the final view model in
its placeholder form — never dropped — and the final list length equals
the input length. -/
theorem c2_hydration_coverage_and_preservation :
    (∀ entries : List VisualNovelDatabaseEntry, hasPlaceholderEntries entries = true →
      (hydrationBatchRequests entries).flatten = distinctVisualNovelIdentifiers entries)
    ∧ (∀ entries : List VisualNovelDatabaseEntry, hasPlaceholderEntries entries = false →
        hydrationBatchRequests entries = [])
    ∧ (∀ (batchTransport : List String → List VisualNovelDatabaseEntry)
        (entries : List VisualNovelDatabaseEntry) (entry : VisualNovelDatabaseEntry),
        entry ∈ entries →
        hydratedMapGet
          (buildHydratedEntriesByIdentifier batchTransport
            (chunkArray (distinctVisualNovelIdentifiers entries) 100))
          (hydrationNormalizeIdentifier entry.id) = none →
        entry ∈ hydrateUserListEntries batchTransport entries)
    ∧ (∀ (batchTransport : List String → List VisualNovelDatabaseEntry)
        (entries : List VisualNovelDatabaseEntry),
        (hydrateUserListEntries batchTransport entries).length = entries.length) := by
  refine ⟨?_, ?_, ?_, ?_⟩
  · intro entries hplaceholder
    rw [hydrationBatchRequests, if_pos hplaceholder]
    exact chunkArray_join 100 (by decide) _
  · intro entries hnone
    rw [hydrationBatchRequests, hnone]
    simp
  · intro batchTransport entries entry hmem hmiss
    unfold hydrateUserListEntries
    by_cases hplaceholder : hasPlaceholderEntries entries = true
    · rw [if_pos hplaceholder]
      refine List.mem_map.mpr ⟨entry, hmem, ?_⟩
      rw [hmiss]
      rfl
    · rw [if_neg hplaceholder]
      exact hmem
  · intro batchTransport entries
    unfold hydrateUserListEntries
    by_cases hplaceholder : hasPlaceholderEntries entries = true
    · rw [if_pos hplaceholder]
      exact List.length_map _ _
    · rw [if_neg hplaceholder]

/-- Witness for C2 (amended): with a batch transport returning no match
at all, the placeholder `v1` entry survives in the final view model and
the list keeps its length. -/
theorem c2_hydration_witness :
    c2PlaceholderEntry
      ∈ hydrateUserListEntries (fun _ => []) [c2PlaceholderEntry, c2KnownEntry]
    ∧ (hydrateUserListEntries (fun _ => []) [c2PlaceholderEntry, c2KnownEntry]).length = 2 := by
  have hmiss : hydratedMapGet
      (buildHydratedEntriesByIdentifier (fun _ => [])
        (chunkArray (distinctVisualNovelIdentifiers [c2PlaceholderEntry, c2KnownEntry]) 100))
      (hydrationNormalizeIdentifier c2PlaceholderEntry.id) = none := by
    rw [buildHydratedEntriesByIdentifier_empty_transport]
    rfl
  exact ⟨c2_hydration_coverage_and_preservation.2.2.1 (fun _ => [])
      [c2PlaceholderEntry, c2KnownEntry] c2PlaceholderEntry (by decide) hmiss,
    c2_hydration_coverage_and_preservation.2.2.2 (fun _ => [])
      [c2PlaceholderEntry, c2KnownEntry]⟩

/-- A neutral text-kind descriptor used by the pagination and race
fixtures. -/
def plainTextDescriptor (term : String) : ListQueryDescriptor :=
  { kind := "text", term := term, tagIdentifier := none, developerIdentifier := none
    filters := { languages := [], originalLanguage := ""
                 onlyWithScreenshots := false, onlyWithDescription := false }
    sort := { sortField := "default", direction := "desc" } }

/-- A distinct catalog entry per index, for order-sensitive fixtures. -/
def sampleEntry (index : Nat) : VisualNovelDatabaseEntry :=
  { id := "v" ++ toString index, title := "Title " ++ toString index
    rating := none, image := none }

/-- Server page 1 of the C3 example: 20 entries, `more = true`. -/
def c3PageOne : VisualNovelQueryResponse :=
  { results := (List.range 20).map sampleEntry, more := true }

/-- Server page 2 of the C3 example: 20 entries, `more = true`. -/
def c3PageTwo : VisualNovelQueryResponse :=
  { results := (List.range' 20 20).map sampleEntry, more := true }

/-- Server page 3 of the C3 example: 5 entries, `more = false`. -/
def c3PageThree : VisualNovelQueryResponse :=
  { results := (List.range' 40 5).map sampleEntry, more := false }

/-- The state before the three `appendNext` calls: search mode, nothing
accumulated, page 1, `hasMore` known true, no fetch in flight. -/
def c3InitialState : ComponentState :=
  { visualNovelDatabaseEntries := [], isDataLoading := false
    isLoadingAdditionalPage := false, networkErrorMessage := none
    currentResultPage := 1, hasAdditionalResults := true
    isViewingUserList := false, activeQueryDescriptor := plainTextDescriptor "saya" }

/-- The state after the three completed `appendNext` round trips. -/
def c3FinalState : ComponentState :=
  loadNextPageComplete
    (loadNextPageComplete (loadNextPageComplete c3InitialState c3PageOne) c3PageTwo)
    c3PageThree

/-- **C3.** Loading the next page appends the newly fetched page's
results after the existing accumulation in server-returned order (three
sequential appends of server pages of sizes [20, 20, 5] with
`more = [true, true, false]` yield 45 entries in server order), and a
further next-page request is a no-op when a fetch is already in flight
or when `hasMore` is false. -/
theorem c3_pagination_append_contract :
    (∀ (state : ComponentState) (responsePayload : VisualNovelQueryResponse),
      loadNextPageStartsFetch state = true →
        (loadNextPageComplete state responsePayload).visualNovelDatabaseEntries
            = state.visualNovelDatabaseEntries ++ responsePayload.results
        ∧ (loadNextPageComplete state responsePayload).currentResultPage
            = state.currentResultPage + 1
        ∧ (loadNextPageComplete state responsePayload).hasAdditionalResults
            = responsePayload.more)
    ∧ (∀ (state : ComponentState) (responsePayload : VisualNovelQueryResponse),
        state.isDataLoading = true ∨ state.isLoadingAdditionalPage = true →
          loadNextPageComplete state responsePayload = state)
    ∧ (∀ (state : ComponentState) (responsePayload : VisualNovelQueryResponse),
        state.hasAdditionalResults = false →
          loadNextPageComplete state responsePayload = state)
    ∧ c3FinalState.visualNovelDatabaseEntries
        = c3PageOne.results ++ c3PageTwo.results ++ c3PageThree.results
    ∧ c3FinalState.visualNovelDatabaseEntries = (List.range 45).map sampleEntry
    ∧ c3FinalState.visualNovelDatabaseEntries.length = 45
    ∧ (∀ responsePayload : VisualNovelQueryResponse,
        loadNextPageComplete c3FinalState responsePayload = c3FinalState) := by
  have hguardtrue :
      ∀ (state : ComponentState) (responsePayload : VisualNovelQueryResponse),
      loadNextPageStartsFetch state = true →
        loadNextPageComplete state responsePayload
          = dataFetchResolve (dataFetchStart state true) state.activeQueryDescriptor
              (state.currentResultPage + 1) true responsePayload := by
    intro state responsePayload hstart
    have hcond : (state.isViewingUserList || state.isDataLoading
        || state.isLoadingAdditionalPage || !state.hasAdditionalResults) = false := by
      simpa [loadNextPageStartsFetch] using hstart
    rw [loadNextPageComplete, hcond]
    simp
  refine ⟨?_, ?_, ?_, ?_, ?_, ?_, ?_⟩
  · intro state responsePayload hstart
    rw [hguardtrue state responsePayload hstart]
    simp [dataFetchStart, dataFetchResolve]
  · intro state responsePayload hflight
    rw [loadNextPageComplete]
    rcases hflight with hflight | hflight <;> simp [hflight]
  · intro state responsePayload hnomore
    rw [loadNextPageComplete]
    simp [hnomore]
  · decide
  · decide
  · decide
  · intro responsePayload
    rw [loadNextPageComplete]
    have hstop : (c3FinalState.isViewingUserList || c3FinalState.isDataLoading
        || c3FinalState.isLoadingAdditionalPage || !c3FinalState.hasAdditionalResults)
        = true := by decide
    rw [hstop]
    simp

/-- Witness for C3 at the concrete three-page example: the first append
extends the empty accumulation by page 1, and the exhausted final state
ignores a fourth request. -/
theorem c3_pagination_witness :
    ((loadNextPageComplete c3InitialState c3PageOne).visualNovelDatabaseEntries
        = c3InitialState.visualNovelDatabaseEntries ++ c3PageOne.results
      ∧ (loadNextPageComplete c3InitialState c3PageOne).currentResultPage
        = c3InitialState.currentResultPage + 1
      ∧ (loadNextPageComplete c3InitialState c3PageOne).hasAdditionalResults = c3PageOne.more)
    ∧ loadNextPageComplete (dataFetchStart c3InitialState true) c3PageOne
        = dataFetchStart c3InitialState true :=
  ⟨c3_pagination_append_contract.1 c3InitialState c3PageOne (by decide),
   c3_pagination_append_contract.2.1 (dataFetchStart c3InitialState true) c3PageOne
     (Or.inr (by decide))⟩

/-- The older request A of the race example: a slower search. -/
def c1DescriptorA : ListQueryDescriptor := plainTextDescriptor "older slow query"

/-- The newer request B of the race example: a faster search that
supersedes A before A resolves. -/
def c1DescriptorB : ListQueryDescriptor := plainTextDescriptor "newer fast query"

/-- A's response payload. -/
def c1ResponseA : VisualNovelQueryResponse :=
  { results := [{ id := "v100", title := "Stale A Result", rating := none, image := none }]
    more := false }

/-- B's response payload. -/
def c1ResponseB : VisualNovelQueryResponse :=
  { results := [{ id := "v200", title := "Fresh B Result", rating := none, image := none }]
    more := false }

/-- The component state before the race. -/
def c1InitialState : ComponentState :=
  { visualNovelDatabaseEntries := [], isDataLoading := false
    isLoadingAdditionalPage := false, networkErrorMessage := none
    currentResultPage := 1, hasAdditionalResults := false
    isViewingUserList := false, activeQueryDescriptor := c1DescriptorA }

/-- The race interleaving of the claim: A starts, B starts (supersedes
A), B's response arrives and is committed, then A's response arrives
late. -/
def c1RaceTrace : List FetchEvent :=
  [.startFetch c1DescriptorA 1 false,
   .startFetch c1DescriptorB 1 false,
   .resolveFetch c1DescriptorB 1 false c1ResponseB,
   .resolveFetch c1DescriptorA 1 false c1ResponseA]

/-- **C1 counterexample.** In the claimed race — older fetch A
superseded by newer fetch B, with A's response arriving after B's was
committed — `executeDataFetchOperation` commits A's late results
unconditionally (it checks no staleness token), so the displayed result
set ends up equal to A's results, not B's: the claim's required outcome
fails on this concrete interleaving. -/
theorem c1_superseded_fetch_counterexample :
    (runFetchTrace c1InitialState c1RaceTrace).visualNovelDatabaseEntries
      = c1ResponseA.results
    ∧ c1ResponseA.results ≠ c1ResponseB.results
    ∧ ¬ (runFetchTrace c1InitialState c1RaceTrace).visualNovelDatabaseEntries
        = c1ResponseB.results := by
  refine ⟨by decide, by decide, by decide⟩

/-- **C1 (amended).** The search/list data fetch has no staleness
check, so result commits are last-writer-wins: whenever an older
replace-mode fetch A resolves after a newer fetch B was committed, the
displayed result set equals A's results (for every starting state and
every pair of responses).  Only the membership identifier fetch discards
a late-arriving response: its commit is skipped exactly when the
effect's lifecycle flag was cancelled, and applied when it was not. -/
theorem c1_late_response_last_writer_wins :
    (∀ (state : ComponentState) (descriptorA descriptorB : ListQueryDescriptor)
      (pageA pageB : Nat) (responseA responseB : VisualNovelQueryResponse),
      (runFetchTrace state
        [.startFetch descriptorA pageA false,
         .startFetch descriptorB pageB false,
         .resolveFetch descriptorB pageB false responseB,
         .resolveFetch descriptorA pageA false responseA]).visualNovelDatabaseEntries
        = responseA.results)
    ∧ (∀ currentIdentifierSet arrivingIdentifierSet : List String,
        commitUserListIdentifierFetch true currentIdentifierSet arrivingIdentifierSet
          = currentIdentifierSet)
    ∧ (∀ currentIdentifierSet arrivingIdentifierSet : List String,
        commitUserListIdentifierFetch false currentIdentifierSet arrivingIdentifierSet
          = arrivingIdentifierSet) :=
  ⟨fun _ _ _ _ _ _ _ => rfl, fun _ _ => rfl, fun _ _ => rfl⟩

/-- A successful `normalizeUrl` result always comes from a parse whose
protocol is `http:`, `https:` or `mailto:`. -/
theorem normalizeUrl_eq_some (parse : String → Option ParsedUrl) (rawUrl serialized : String) :
    normalizeUrl parse rawUrl = some serialized →
    ∃ parsedUrl : ParsedUrl, parse (urlWithProtocol rawUrl) = some parsedUrl
      ∧ (parsedUrl.protocol = "http:" ∨ parsedUrl.protocol = "https:"
          ∨ parsedUrl.protocol = "mailto:")
      ∧ serialized = parsedUrl.serialized := by
  intro hnorm
  unfold normalizeUrl at hnorm
  rcases hp : parse (urlWithProtocol rawUrl) with _ | parsedUrl <;>
    rw [hp] at hnorm <;> simp at hnorm
  exact ⟨parsedUrl, rfl, by tauto, hnorm.2.2.symm⟩

/-- **C10.** For every description string, the markup renderer emits a
hyperlink for a `[url=...]` tag only when the normalized URL parses
with scheme `http:`, `https:` or `mailto:`; for any other scheme (e.g.
`javascript:`) or an unparseable URL, `normalizeUrl` returns `null` and
the tag's content is rendered as a plain inline `<span>` with no link. -/
theorem c10_url_scheme_safety :
    (∀ (parse : String → Option ParsedUrl) (node : ParsedTagNode) (href : String),
      node.tag = "url" →
      renderTagNode parse node = .anchorNode href node.children →
        ∃ parsedUrl : ParsedUrl,
          parse (urlWithProtocol (node.url.getD (extractPlainText node.children)))
              = some parsedUrl
          ∧ (parsedUrl.protocol = "http:" ∨ parsedUrl.protocol = "https:"
              ∨ parsedUrl.protocol = "mailto:")
          ∧ href = parsedUrl.serialized)
    ∧ (∀ (parse : String → Option ParsedUrl) (rawUrl : String) (parsedUrl : ParsedUrl),
        parse (urlWithProtocol rawUrl) = some parsedUrl →
        parsedUrl.protocol ≠ "http:" → parsedUrl.protocol ≠ "https:" →
        parsedUrl.protocol ≠ "mailto:" →
        normalizeUrl parse rawUrl = none)
    ∧ (∀ (parse : String → Option ParsedUrl) (rawUrl : String),
        parse (urlWithProtocol rawUrl) = none →
        normalizeUrl parse rawUrl = none)
    ∧ (∀ (parse : String → Option ParsedUrl) (node : ParsedTagNode),
        node.tag = "url" →
        normalizeUrl parse (node.url.getD (extractPlainText node.children)) = none →
        renderTagNode parse node = .spanNode node.children) := by
  refine ⟨?_, ?_, ?_, ?_⟩
  · intro parse node href htag hrender
    rw [renderTagNode, htag] at hrender
    rw [if_neg (by decide : ¬ ("url" : String) = "b"),
      if_neg (by decide : ¬ ("url" : String) = "i"),
      if_neg (by decide : ¬ ("url" : String) = "u")] at hrender
    rcases hnorm : normalizeUrl parse (node.url.getD (extractPlainText node.children))
      with _ | resolvedUrl
    · rw [hnorm] at hrender
      simp at hrender
    · rw [hnorm] at hrender
      simp only [RenderedNode.anchorNode.injEq] at hrender
      obtain ⟨parsedUrl, hp, hallowed, hser⟩ :=
        normalizeUrl_eq_some parse _ resolvedUrl hnorm
      exact ⟨parsedUrl, hp, hallowed, hrender.1.symm.trans hser⟩
  · intro parse rawUrl parsedUrl hp h1 h2 h3
    unfold normalizeUrl
    by_cases hlen : (jsTrim rawUrl).length = 0
    · simp [hlen]
    · simp [hlen, hp, h1, h2, h3]
  · intro parse rawUrl hp
    unfold normalizeUrl
    by_cases hlen : (jsTrim rawUrl).length = 0
    · simp [hlen]
    · simp [hlen, hp]
  · intro parse node htag hnorm
    rw [renderTagNode, htag,
      if_neg (by decide : ¬ ("url" : String) = "b"),
      if_neg (by decide : ¬ ("url" : String) = "i"),
      if_neg (by decide : ¬ ("url" : String) = "u"), hnorm]

/-- A host parser behaving like WHATWG `new URL` on the literal
`javascript:alert(1)`: it parses, with protocol `javascript:`. -/
def c10JavascriptParser : String → Option ParsedUrl :=
  fun serialized => some { protocol := "javascript:", serialized := serialized }

/-- A `[url=javascript:alert(1)]` tag node. -/
def c10JavascriptNode : ParsedTagNode :=
  { tag := "url", url := some "javascript:alert(1)"
    children := [.text "click"] }

/-- Witness for C10: under a parser that yields the `javascript:`
scheme, normalization rejects the URL and the tag renders as a plain
span. -/
theorem c10_url_scheme_witness :
    normalizeUrl c10JavascriptParser "javascript:alert(1)" = none
    ∧ renderTagNode c10JavascriptParser c10JavascriptNode
        = .spanNode c10JavascriptNode.children := by
  have hnone : normalizeUrl c10JavascriptParser "javascript:alert(1)" = none :=
    c10_url_scheme_safety.2.1 c10JavascriptParser "javascript:alert(1)"
      { protocol := "javascript:", serialized := urlWithProtocol "javascript:alert(1)" }
      rfl (by decide) (by decide) (by decide)
  refine ⟨hnone, ?_⟩
  refine c10_url_scheme_safety.2.2.2 c10JavascriptParser c10JavascriptNode rfl ?_
  simpa [c10JavascriptNode] using hnone

end VndbCompanion
